import Mathlib

/-!
Shallow embedding of the auto-g repository: synchronisation of GitHub issues
into a local store (src/src/lib/sync-issues.ts and
src/src/lib/fetch-user-issues.ts), the start transition endpoint
(src/src/app/api/issues/[id]/start/route.ts) and the list endpoint
(src/src/app/api/issues/route.ts), over the prisma data model
(the migration in the repository, table issues).

Modelling choices, stated once:
* the database is a list of rows; prisma findUnique is List.find? on the
  natural key, create appends a row with a fresh id, update maps over the
  rows touching those with the given id (prisma ids are unique opaque
  strings, modelled as Nat with freshId strictly above all present ids);
* network fetches and store write failures are oracle parameters (the code
  reaches them through await fetch / try-catch around prisma calls);
* JavaScript numbers reaching the list endpoint are integers, NaN or an
  infinity (JSNum); Math.ceil(total / limit) is modelled as the single
  operation jsCeilDiv, and parseInt as a decimal parser (the 0x radix
  prefix of parseInt never arises for the values these routes handle);
* row fields createdAt and updatedAt (local bookkeeping timestamps managed
  by prisma itself) are omitted: no code under scrutiny reads them.
-/

/-- Enum GitHubStatus of the prisma schema, values open and closed (open is
a Lean keyword, written open_ here). -/
inductive GitHubStatus
  | open_
  | closed
deriving DecidableEq, Repr

/-- Enum WorkflowStatus of the prisma schema, values pending, in_process and
end (end is a Lean keyword, written end_ here). -/
inductive WorkflowStatus
  | pending
  | in_process
  | end_
deriving DecidableEq, Repr

/-- A row of the issues table (prisma model Issue). -/
structure DbIssue where
  id : Nat
  githubNumber : Nat
  repository : String
  title : String
  description : Option String
  statusGithub : GitHubStatus
  workflowStatus : WorkflowStatus
  url : String
  labels : List String
  createdAtGithub : Nat
  updatedAtGithub : Nat
  selectedContext : Option String
  prompt : Option String
deriving DecidableEq, Repr

/-- The issues table. -/
abbrev Db := List DbIssue

/-- One element of the labels array of a raw GitHub issue. -/
structure IssueLabel where
  name : String
deriving DecidableEq, Repr

/-- Interface GitHubIssue of sync-issues.ts lines 4-14: a raw issue record
from the GitHub API. The interface types state as the union of the literals
open and closed; it is a String here, and theorems name the literal they
assume. Timestamps are opaque (Nat). -/
structure GitHubIssue where
  number : Nat
  title : String
  body : Option String
  state : String
  html_url : String
  labels : List IssueLabel
  created_at : Nat
  updated_at : Nat
  repository_url : String
deriving DecidableEq, Repr

/-- JavaScript whitespace as these routes can meet it (parseInt skipping,
String.prototype.trim). -/
def isJsSpace (c : Char) : Bool :=
  c = ' ' || c = '\t' || c = '\n' || c = '\r'

/-- The remainder of the list after the first occurrence of the marker, when
the marker occurs. (String.splitOn of the library does not reduce inside the
kernel, so the string searching these sources do is modelled on character
lists.) -/
def findMarker (marker : List Char) : List Char → Option (List Char)
  | [] => if List.isPrefixOf marker [] then some ([].drop marker.length) else none
  | x :: xs =>
    if List.isPrefixOf marker (x :: xs) then some ((x :: xs).drop marker.length)
    else findMarker marker xs

/-- Split a character list at every occurrence of a one-character separator,
as JavaScript String.prototype.split does. -/
def splitOnCharList (sep : Char) : List Char → List (List Char)
  | [] => [[]]
  | c :: cs =>
    let rest := splitOnCharList sep cs
    if c = sep then [] :: rest
    else
      match rest with
      | [] => [[c]]
      | r :: rs => (c :: r) :: rs

/-- JavaScript repo.split(sep) for the one-character separators the sync
orchestrator uses. -/
def jsSplitChar (sep : Char) (s : String) : List String :=
  (splitOnCharList sep s.toList).map (fun cs => String.mk cs)

/-- JavaScript String.prototype.trim. -/
def jsTrim (s : String) : String :=
  String.mk (((s.toList.dropWhile isJsSpace).reverse.dropWhile isJsSpace).reverse)

/-- Line 80 of sync-issues.ts: issue.state === "open" ? "open" : "closed". -/
def githubStatusOf (state : String) : GitHubStatus :=
  if state = "open" then GitHubStatus.open_ else GitHubStatus.closed

/-- Lines 84-91 of sync-issues.ts: prisma findUnique on the compound key
githubNumber_repository. -/
def findUnique (db : Db) (githubNumber : Nat) (repository : String) : Option DbIssue :=
  db.find? (fun r => r.githubNumber == githubNumber && r.repository == repository)

/-- A fresh row id, strictly above every id present (prisma generates a
fresh unique id on create). -/
def freshId (db : Db) : Nat :=
  db.foldr (fun r m => max (r.id + 1) m) 0

/-- The value syncIssue resolves to: "created" or "updated". -/
inductive SyncAction
  | created
  | updated
deriving DecidableEq, Repr

/-- Function syncIssue of sync-issues.ts lines 76-142: reconcile one raw
remote issue against the table. On a miss, create a row (workflowStatus end
when the remote state is closed, else pending; selectedContext and prompt
take their schema default null). On a hit, merge the workflow status (closed
forces end; a reopen resets to pending; otherwise keep) and rewrite the
mirrored fields of the rows carrying the found id. -/
def syncIssue (issue : GitHubIssue) (repository : String) (db : Db) : SyncAction × Db :=
  let githubStatus := githubStatusOf issue.state
  let labels := issue.labels.map (fun l => l.name)
  match findUnique db issue.number repository with
  | none =>
    let workflowStatus :=
      if githubStatus = GitHubStatus.closed then WorkflowStatus.end_ else WorkflowStatus.pending
    (SyncAction.created,
      db ++ [{ id := freshId db, githubNumber := issue.number, repository := repository,
               title := issue.title, description := issue.body,
               statusGithub := githubStatus, workflowStatus := workflowStatus,
               url := issue.html_url, labels := labels,
               createdAtGithub := issue.created_at, updatedAtGithub := issue.updated_at,
               selectedContext := none, prompt := none }])
  | some existing =>
    let newWorkflowStatus :=
      if githubStatus = GitHubStatus.closed then WorkflowStatus.end_
      else if existing.statusGithub = GitHubStatus.closed ∧ githubStatus = GitHubStatus.open_ then
        WorkflowStatus.pending
      else existing.workflowStatus
    (SyncAction.updated,
      db.map (fun r =>
        if r.id = existing.id then
          { r with title := issue.title, description := issue.body,
                   statusGithub := githubStatus, workflowStatus := newWorkflowStatus,
                   url := issue.html_url, labels := labels,
                   updatedAtGithub := issue.updated_at }
        else r))

/-- Function extractRepoFromUrl of fetch-user-issues.ts lines 26-29: the
regular expression match repos\/(.+)$ keeps everything after the first
occurrence of repos/ when that remainder is nonempty, else the input. -/
def extractRepoFromUrl (repoUrl : String) : String :=
  match findMarker (String.toList ("repos/")) repoUrl.toList with
  | some rest => if rest.isEmpty then repoUrl else String.mk rest
  | none => repoUrl

/-- The per-issue body of syncUserAssignedIssues, fetch-user-issues.ts lines
111-184: identical reconciliation to syncIssue, with the repository taken
from the repository_url of the search result. The source inlines this loop
body; it is named here so theorems can speak about one iteration. -/
def syncUserIssue (issue : GitHubIssue) (db : Db) : SyncAction × Db :=
  let repository := extractRepoFromUrl issue.repository_url
  let githubStatus := githubStatusOf issue.state
  let labels := issue.labels.map (fun l => l.name)
  match findUnique db issue.number repository with
  | none =>
    let workflowStatus :=
      if githubStatus = GitHubStatus.closed then WorkflowStatus.end_ else WorkflowStatus.pending
    (SyncAction.created,
      db ++ [{ id := freshId db, githubNumber := issue.number, repository := repository,
               title := issue.title, description := issue.body,
               statusGithub := githubStatus, workflowStatus := workflowStatus,
               url := issue.html_url, labels := labels,
               createdAtGithub := issue.created_at, updatedAtGithub := issue.updated_at,
               selectedContext := none, prompt := none }])
  | some existing =>
    let newWorkflowStatus :=
      if githubStatus = GitHubStatus.closed then WorkflowStatus.end_
      else if existing.statusGithub = GitHubStatus.closed ∧ githubStatus = GitHubStatus.open_ then
        WorkflowStatus.pending
      else existing.workflowStatus
    (SyncAction.updated,
      db.map (fun r =>
        if r.id = existing.id then
          { r with title := issue.title, description := issue.body,
                   statusGithub := githubStatus, workflowStatus := newWorkflowStatus,
                   url := issue.html_url, labels := labels,
                   updatedAtGithub := issue.updated_at }
        else r))

/-- Interface SyncResult of sync-issues.ts lines 16-20. -/
structure SyncResult where
  created : Nat
  updated : Nat
  errors : List String
deriving DecidableEq, Repr

/-- A JavaScript falsy check on a string drawn from the environment or a
request body: undefined (none) and the empty string are falsy. -/
def jsFalsyStr : Option String → Bool
  | none => true
  | some s => s = ""

/-- The inner loop body of syncIssuesFromGitHub, sync-issues.ts lines
175-185: one issue is reconciled and persisted inside its own try-catch. A
store failure, injected by the oracle fault, is recorded as an error string
with the issue number and the repository and leaves the table as it was. -/
def syncOneIssueStep (fault : GitHubIssue → String → Option String) (repo : String)
    (acc : SyncResult × Db) (issue : GitHubIssue) : SyncResult × Db :=
  match fault issue repo with
  | some m =>
    ({ acc.1 with errors := acc.1.errors ++
        ["Error syncing issue #" ++ toString issue.number ++ " from " ++ repo ++ ": " ++ m] },
      acc.2)
  | none =>
    match syncIssue issue repo acc.2 with
    | (SyncAction.created, db2) => ({ acc.1 with created := acc.1.created + 1 }, db2)
    | (SyncAction.updated, db2) => ({ acc.1 with updated := acc.1.updated + 1 }, db2)

/-- The per-repository body of syncIssuesFromGitHub, sync-issues.ts lines
162-193: split owner/name (a malformed entry only records an error), fetch
the full issue list (the oracle fetchRepo stands for fetchIssuesFromRepo;
a failure is recorded as an error string naming the repository), then fold
the per-issue step over the fetched issues. -/
def syncRepoStep (fetchRepo : String → String → Except String (List GitHubIssue))
    (fault : GitHubIssue → String → Option String)
    (acc : SyncResult × Db) (repo : String) : SyncResult × Db :=
  let parts := jsSplitChar '/' repo
  let owner := parts.getD 0 ("")
  let repoName := parts.getD 1 ("")
  if owner = "" ∨ repoName = "" then
    ({ acc.1 with errors := acc.1.errors ++ ["Invalid repo format: " ++ repo] }, acc.2)
  else
    match fetchRepo owner repoName with
    | Except.error e =>
      ({ acc.1 with errors := acc.1.errors ++
          ["Error fetching issues from " ++ repo ++ ": " ++ e] }, acc.2)
    | Except.ok issues => issues.foldl (syncOneIssueStep fault repo) acc

/-- Function syncIssuesFromGitHub of sync-issues.ts lines 147-201: throw
(Except.error) when the GH_TOKEN or GH_REPOS configuration is falsy, else
split GH_REPOS on commas, trim, and fold the per-repository step, returning
the aggregate counts, the error strings and the final table. -/
def syncIssuesFromGitHub (token reposConfig : Option String)
    (fetchRepo : String → String → Except String (List GitHubIssue))
    (fault : GitHubIssue → String → Option String)
    (db : Db) : Except String (SyncResult × Db) :=
  if jsFalsyStr token then
    Except.error ("GH_TOKEN environment variable is not set")
  else if jsFalsyStr reposConfig then
    Except.error ("GH_REPOS environment variable is not set")
  else
    let repos := (jsSplitChar ',' (reposConfig.getD (""))).map jsTrim
    Except.ok (repos.foldl (syncRepoStep fetchRepo fault)
      ({ created := 0, updated := 0, errors := [] }, db))

/-- How many rows carry a given natural key. -/
def keyCount (db : Db) (githubNumber : Nat) (repository : String) : Nat :=
  db.countP (fun r => r.githubNumber == githubNumber && r.repository == repository)

/-- Interface StartRequestBody of the start route, lines 5-8: a JSON body
whose fields may each be absent. -/
structure StartBody where
  selectedContext : Option String
  prompt : Option String
deriving DecidableEq, Repr

/-- What the start route answers: the updated row, or an HTTP status with a
message. -/
inductive StartResponse
  | ok (issue : DbIssue)
  | err (status : Nat) (message : String)
deriving DecidableEq, Repr

/-- The JavaScript expression body.prompt || null of the start route line
56: an absent or empty prompt is stored as null. -/
def jsOrNull : Option String → Option String
  | some s => if s = "" then none else some s
  | none => none

/-- Prisma findUnique on the surrogate id (start route lines 27-29). -/
def findById (db : Db) (id : Nat) : Option DbIssue :=
  db.find? (fun r => r.id == id)

/-- Function POST of src/src/app/api/issues/[id]/start/route.ts lines 10-69:
reject a falsy selectedContext with 400, an unknown id with 404, a row whose
statusGithub is not open with 400, a row whose workflowStatus is not pending
with 400 — each rejection leaves the table untouched — and otherwise write
selectedContext, prompt (or null) and workflowStatus in_process to the row
with that id, answering with the updated row. -/
def startIssue (db : Db) (id : Nat) (body : StartBody) : StartResponse × Db :=
  if jsFalsyStr body.selectedContext then
    (StartResponse.err 400 ("selectedContext is required"), db)
  else
    match findById db id with
    | none => (StartResponse.err 404 ("Issue not found"), db)
    | some existingIssue =>
      if existingIssue.statusGithub ≠ GitHubStatus.open_ then
        (StartResponse.err 400 ("Cannot start a closed issue"), db)
      else if existingIssue.workflowStatus ≠ WorkflowStatus.pending then
        (StartResponse.err 400 ("Issue is already in process or ended"), db)
      else
        (StartResponse.ok
          { existingIssue with
              selectedContext := body.selectedContext,
              prompt := jsOrNull body.prompt,
              workflowStatus := WorkflowStatus.in_process },
          db.map (fun r =>
            if r.id == id then
              { r with selectedContext := body.selectedContext,
                       prompt := jsOrNull body.prompt,
                       workflowStatus := WorkflowStatus.in_process }
            else r))

/-- A JavaScript number as the list route computes with it: an integer, NaN
or an infinity. -/
inductive JSNum
  | nan
  | posInf
  | negInf
  | fin (v : Int)
deriving DecidableEq, Repr

/-- JavaScript subtraction restricted to the values the list route builds. -/
def jsSub : JSNum → JSNum → JSNum
  | JSNum.fin a, JSNum.fin b => JSNum.fin (a - b)
  | JSNum.posInf, JSNum.fin _ => JSNum.posInf
  | JSNum.fin _, JSNum.posInf => JSNum.negInf
  | JSNum.negInf, JSNum.fin _ => JSNum.negInf
  | JSNum.fin _, JSNum.negInf => JSNum.posInf
  | JSNum.posInf, JSNum.negInf => JSNum.posInf
  | JSNum.negInf, JSNum.posInf => JSNum.negInf
  | _, _ => JSNum.nan

/-- JavaScript multiplication restricted to the values the list route
builds. -/
def jsMul : JSNum → JSNum → JSNum
  | JSNum.fin a, JSNum.fin b => JSNum.fin (a * b)
  | JSNum.nan, _ => JSNum.nan
  | _, JSNum.nan => JSNum.nan
  | JSNum.posInf, JSNum.posInf => JSNum.posInf
  | JSNum.negInf, JSNum.negInf => JSNum.posInf
  | JSNum.posInf, JSNum.negInf => JSNum.negInf
  | JSNum.negInf, JSNum.posInf => JSNum.negInf
  | JSNum.posInf, JSNum.fin b => if b = 0 then JSNum.nan else if 0 < b then JSNum.posInf else JSNum.negInf
  | JSNum.fin a, JSNum.posInf => if a = 0 then JSNum.nan else if 0 < a then JSNum.posInf else JSNum.negInf
  | JSNum.negInf, JSNum.fin b => if b = 0 then JSNum.nan else if 0 < b then JSNum.negInf else JSNum.posInf
  | JSNum.fin a, JSNum.negInf => if a = 0 then JSNum.nan else if 0 < a then JSNum.negInf else JSNum.posInf

/-- The ceiling of a quotient of integers, total order semantics of
Math.ceil on an exact rational quotient. -/
def intCeilDiv (a b : Int) : Int :=
  if 0 < b then -((-a).ediv b) else -(a.ediv (-b))

/-- Line 50 of the list route, Math.ceil(total / limit), as one operation:
division by zero follows JavaScript (0/0 is NaN, a positive total over zero
is Infinity), a quotient by an infinity rounds up to zero, and otherwise the
exact rational quotient is rounded up. -/
def jsCeilDiv (total : Nat) (limit : JSNum) : JSNum :=
  match limit with
  | JSNum.nan => JSNum.nan
  | JSNum.posInf => JSNum.fin 0
  | JSNum.negInf => JSNum.fin 0
  | JSNum.fin l =>
    if l = 0 then (if total = 0 then JSNum.nan else JSNum.posInf)
    else JSNum.fin (intCeilDiv total l)

/-- JavaScript parseInt on a decimal string: skip leading whitespace, an
optional sign, then the maximal run of decimal digits; none stands for NaN
when no digit is found. -/
def parseIntJS (s : String) : Option Int :=
  let cs := s.toList.dropWhile isJsSpace
  let signed : Int × List Char :=
    match cs with
    | '-' :: rest => (-1, rest)
    | '+' :: rest => (1, rest)
    | _ => (1, cs)
  let ds := signed.2.takeWhile Char.isDigit
  if ds.isEmpty then none
  else some (signed.1 * (ds.foldl (fun a c => a * 10 + (c.toNat - Char.toNat '0')) 0 : Nat))

/-- Lift the result of parseInt into a JavaScript number. -/
def jsOfInt? : Option Int → JSNum
  | none => JSNum.nan
  | some n => JSNum.fin n

/-- The JavaScript expression searchParams.get(name) || dflt of the list
route lines 12-13: null (an absent parameter) and the empty string fall back
to the default. -/
def queryOr (v : Option String) (dflt : String) : String :=
  match v with
  | none => dflt
  | some s => if s = "" then dflt else s

/-- Line 12 of the list route: parseInt(searchParams.get("page") || "1"). -/
def pageParam (page : Option String) : JSNum :=
  jsOfInt? (parseIntJS (queryOr page ("1")))

/-- Line 13 of the list route: parseInt(searchParams.get("limit") || "20"). -/
def limitParam (limit : Option String) : JSNum :=
  jsOfInt? (parseIntJS (queryOr limit ("20")))

/-- Line 40 of the list route: skip: (page - 1) * limit. -/
def skipParam (page limit : Option String) : JSNum :=
  jsMul (jsSub (pageParam page) (JSNum.fin 1)) (limitParam limit)

/-- The where clause the list route builds, lines 16-31. -/
structure IssueWhere where
  repository : Option String
  workflowStatus : Option String
  statusGithub : Option String
deriving DecidableEq, Repr

/-- Lines 16-31 of the list route: a truthy repository is always applied; a
workflowStatus or statusGithub filter is applied only when truthy and a
member of its enum list, and is silently dropped otherwise. -/
def buildWhere (repository workflowStatus statusGithub : Option String) : IssueWhere :=
  { repository :=
      match repository with
      | some s => if s = "" then none else some s
      | none => none,
    workflowStatus :=
      match workflowStatus with
      | some s =>
        if (s != "") && List.contains ["pending", "in_process", "end"] s then some s else none
      | none => none,
    statusGithub :=
      match statusGithub with
      | some s =>
        if (s != "") && List.contains ["open", "closed"] s then some s else none
      | none => none }

/-- The string prisma compares a WorkflowStatus filter against. -/
def workflowStatusToString : WorkflowStatus → String
  | WorkflowStatus.pending => "pending"
  | WorkflowStatus.in_process => "in_process"
  | WorkflowStatus.end_ => "end"

/-- The string prisma compares a GitHubStatus filter against. -/
def githubStatusToString : GitHubStatus → String
  | GitHubStatus.open_ => "open"
  | GitHubStatus.closed => "closed"

/-- Whether a row satisfies the where clause: a conjunction of the equality
filters present. -/
def matchesWhere (w : IssueWhere) (r : DbIssue) : Bool :=
  (match w.repository with
   | none => true
   | some s => r.repository == s) &&
  (match w.workflowStatus with
   | none => true
   | some s => workflowStatusToString r.workflowStatus == s) &&
  (match w.statusGithub with
   | none => true
   | some s => githubStatusToString r.statusGithub == s)

/-- Position of a workflow status in the postgres enum order (the order the
migration declares the values in), which orderBy workflowStatus asc uses. -/
def workflowRank : WorkflowStatus → Nat
  | WorkflowStatus.pending => 0
  | WorkflowStatus.in_process => 1
  | WorkflowStatus.end_ => 2

/-- The orderBy of the list route line 39: workflowStatus ascending, then
updatedAtGithub descending. -/
def issueBefore (a b : DbIssue) : Bool :=
  if workflowRank a.workflowStatus < workflowRank b.workflowStatus then true
  else if workflowRank a.workflowStatus = workflowRank b.workflowStatus then
    Nat.ble b.updatedAtGithub a.updatedAtGithub
  else false

/-- Insert a row into a list sorted by issueBefore. -/
def insertRow (r : DbIssue) : List DbIssue → List DbIssue
  | [] => [r]
  | x :: xs => if issueBefore r x then r :: x :: xs else x :: insertRow r xs

/-- Sort rows by issueBefore (an executable model of the orderBy the store
applies). -/
def sortRows : List DbIssue → List DbIssue
  | [] => []
  | x :: xs => insertRow x (sortRows xs)

/-- A skip or take argument as prisma accepts it: a non-negative integer. -/
def jsToNat : JSNum → Option Nat
  | JSNum.fin v => if 0 ≤ v then some v.toNat else none
  | _ => none

/-- The prisma findMany of the list route lines 37-42: filter, order, then
drop skip rows and keep take rows. Arguments outside the domain prisma
accepts (NaN, an infinity, a negative) make the real store throw — a
behaviour of the external collaborator; the model answers the empty list
there, and no theorem below rests on that branch. -/
def findManyIssues (db : Db) (w : IssueWhere) (skip take : JSNum) : List DbIssue :=
  let rows := sortRows (db.filter (matchesWhere w))
  match jsToNat skip, jsToNat take with
  | some s, some t => (rows.drop s).take t
  | _, _ => []

/-- Pagination metadata of the list route response, lines 46-51. -/
structure Pagination where
  page : JSNum
  limit : JSNum
  total : Nat
  totalPages : JSNum
deriving DecidableEq, Repr

/-- The JSON the list route answers, lines 44-52. -/
structure ListResponse where
  issues : List DbIssue
  pagination : Pagination
deriving DecidableEq, Repr

/-- Function GET of src/src/app/api/issues/route.ts lines 4-60: parse page
and limit with defaults, build the where clause, count the matching rows,
fetch one page and answer it with pagination metadata. -/
def listIssues (db : Db) (repository workflowStatus statusGithub page limit : Option String) :
    ListResponse :=
  let pageN := pageParam page
  let limitN := limitParam limit
  let w := buildWhere repository workflowStatus statusGithub
  let total := (db.filter (matchesWhere w)).length
  let issues := findManyIssues db w (skipParam page limit) limitN
  { issues := issues,
    pagination :=
      { page := pageN, limit := limitN, total := total,
        totalPages := jsCeilDiv total limitN } }

/-! Helper lemmas about the reconciliation step, shared by several of the
theorems below. -/

-- Reconciliation on a miss of the natural key: sync-issues.ts lines 93-113.
lemma syncIssue_miss (issue : GitHubIssue) (repository : String) (db : Db)
    (h : findUnique db issue.number repository = none) :
    syncIssue issue repository db =
      (SyncAction.created,
        db ++ [{ id := freshId db, githubNumber := issue.number, repository := repository,
                 title := issue.title, description := issue.body,
                 statusGithub := githubStatusOf issue.state,
                 workflowStatus :=
                   if githubStatusOf issue.state = GitHubStatus.closed then WorkflowStatus.end_
                   else WorkflowStatus.pending,
                 url := issue.html_url, labels := issue.labels.map (fun l => l.name),
                 createdAtGithub := issue.created_at, updatedAtGithub := issue.updated_at,
                 selectedContext := none, prompt := none }]) := by
  unfold syncIssue
  rw [h]

-- Reconciliation on a hit of the natural key: sync-issues.ts lines 115-141.
lemma syncIssue_hit (issue : GitHubIssue) (repository : String) (db : Db) (existing : DbIssue)
    (h : findUnique db issue.number repository = some existing) :
    syncIssue issue repository db =
      (SyncAction.updated,
        db.map (fun r =>
          if r.id = existing.id then
            { r with title := issue.title, description := issue.body,
                     statusGithub := githubStatusOf issue.state,
                     workflowStatus :=
                       if githubStatusOf issue.state = GitHubStatus.closed then WorkflowStatus.end_
                       else if existing.statusGithub = GitHubStatus.closed ∧
                           githubStatusOf issue.state = GitHubStatus.open_ then
                         WorkflowStatus.pending
                       else existing.workflowStatus,
                     url := issue.html_url, labels := issue.labels.map (fun l => l.name),
                     updatedAtGithub := issue.updated_at }
          else r)) := by
  unfold syncIssue
  rw [h]

-- The user-sync loop body is syncIssue at the repository taken from the
-- repository_url (their bodies coincide term for term).
lemma syncUserIssue_eq (issue : GitHubIssue) (db : Db) :
    syncUserIssue issue db = syncIssue issue (extractRepoFromUrl issue.repository_url) db := rfl

-- The user-sync loop body on a hit: fetch-user-issues.ts lines 150-178.
lemma syncUserIssue_hit (issue : GitHubIssue) (db : Db) (existing : DbIssue)
    (h : findUnique db issue.number (extractRepoFromUrl issue.repository_url) = some existing) :
    syncUserIssue issue db =
      (SyncAction.updated,
        db.map (fun r =>
          if r.id = existing.id then
            { r with title := issue.title, description := issue.body,
                     statusGithub := githubStatusOf issue.state,
                     workflowStatus :=
                       if githubStatusOf issue.state = GitHubStatus.closed then WorkflowStatus.end_
                       else if existing.statusGithub = GitHubStatus.closed ∧
                           githubStatusOf issue.state = GitHubStatus.open_ then
                         WorkflowStatus.pending
                       else existing.workflowStatus,
                     url := issue.html_url, labels := issue.labels.map (fun l => l.name),
                     updatedAtGithub := issue.updated_at }
          else r)) := by
  rw [syncUserIssue_eq]
  exact syncIssue_hit issue (extractRepoFromUrl issue.repository_url) db existing h

/-! Concrete fixtures for the witnesses. -/

def sampleIssueOpen : GitHubIssue :=
  { number := 7, title := "t2", body := some "b2", state := "open", html_url := "u2",
    labels := [{ name := "l2" }], created_at := 100, updated_at := 300,
    repository_url := "https://api.github.com/repos/o/r" }

def sampleIssueClosed : GitHubIssue := { sampleIssueOpen with state := "closed" }

def sampleRow : DbIssue :=
  { id := 0, githubNumber := 7, repository := "o/r", title := "t", description := some "b",
    statusGithub := GitHubStatus.open_, workflowStatus := WorkflowStatus.in_process,
    url := "u", labels := ["l1"], createdAtGithub := 100, updatedAtGithub := 200,
    selectedContext := some "ctx", prompt := some "p" }

def sampleRowClosed : DbIssue := { sampleRow with statusGithub := GitHubStatus.closed }

def sampleRowPending : DbIssue := { sampleRow with workflowStatus := WorkflowStatus.pending }

/-- C1: for every remote issue whose state is closed and every existing
local record, regardless of its current workflowStatus, reconciliation — in
syncIssue and in the per-issue body of syncUserAssignedIssues alike — takes
the update path and sets the workflowStatus of the stored record to end. -/
theorem closed_remote_forces_end :
    (∀ (issue : GitHubIssue) (repository : String) (db : Db) (existing : DbIssue),
      issue.state = "closed" →
      findUnique db issue.number repository = some existing →
      (syncIssue issue repository db).1 = SyncAction.updated ∧
      ∀ r ∈ (syncIssue issue repository db).2, r.id = existing.id →
        r.workflowStatus = WorkflowStatus.end_) ∧
    (∀ (issue : GitHubIssue) (db : Db) (existing : DbIssue),
      issue.state = "closed" →
      findUnique db issue.number (extractRepoFromUrl issue.repository_url) = some existing →
      (syncUserIssue issue db).1 = SyncAction.updated ∧
      ∀ r ∈ (syncUserIssue issue db).2, r.id = existing.id →
        r.workflowStatus = WorkflowStatus.end_) := by
  have hclosed : ∀ s, s = "closed" → githubStatusOf s = GitHubStatus.closed := by
    intro s hs
    rw [hs]
    rfl
  constructor
  · intro issue repository db existing hstate hfind
    rw [syncIssue_hit issue repository db existing hfind]
    refine ⟨rfl, ?_⟩
    intro r hr hid
    rcases List.mem_map.1 hr with ⟨x, hx, rfl⟩
    by_cases hxe : x.id = existing.id
    · simp only [if_pos hxe, hclosed issue.state hstate, if_true]
    · rw [if_neg hxe] at hid ⊢
      exact absurd hid hxe
  · intro issue db existing hstate hfind
    rw [syncUserIssue_hit issue db existing hfind]
    refine ⟨rfl, ?_⟩
    intro r hr hid
    rcases List.mem_map.1 hr with ⟨x, hx, rfl⟩
    by_cases hxe : x.id = existing.id
    · simp only [if_pos hxe, hclosed issue.state hstate, if_true]
    · rw [if_neg hxe] at hid ⊢
      exact absurd hid hxe

/-- Witness for C1 at a concrete closed remote issue and a stored record in
workflowStatus in_process. -/
theorem closed_remote_forces_end_witness :
    ((syncIssue sampleIssueClosed ("o/r") [sampleRow]).1 = SyncAction.updated ∧
      ∀ r ∈ (syncIssue sampleIssueClosed ("o/r") [sampleRow]).2, r.id = sampleRow.id →
        r.workflowStatus = WorkflowStatus.end_) ∧
    ((syncUserIssue sampleIssueClosed [sampleRow]).1 = SyncAction.updated ∧
      ∀ r ∈ (syncUserIssue sampleIssueClosed [sampleRow]).2, r.id = sampleRow.id →
        r.workflowStatus = WorkflowStatus.end_) :=
  ⟨closed_remote_forces_end.1 sampleIssueClosed ("o/r") [sampleRow] sampleRow rfl (by decide),
   closed_remote_forces_end.2 sampleIssueClosed [sampleRow] sampleRow rfl (by decide)⟩

/-- C2: when the stored record remembers statusGithub closed and the remote
issue is open again (a reopen), reconciliation takes the update path and
resets the workflowStatus of the stored record to pending. -/
theorem reopen_resets_workflow (issue : GitHubIssue) (repository : String) (db : Db)
    (existing : DbIssue)
    (hstate : issue.state = "open")
    (hprev : existing.statusGithub = GitHubStatus.closed)
    (hfind : findUnique db issue.number repository = some existing) :
    (syncIssue issue repository db).1 = SyncAction.updated ∧
    ∀ r ∈ (syncIssue issue repository db).2, r.id = existing.id →
      r.workflowStatus = WorkflowStatus.pending := by
  have hgs : githubStatusOf issue.state = GitHubStatus.open_ := by
    rw [hstate]
    rfl
  rw [syncIssue_hit issue repository db existing hfind]
  refine ⟨rfl, ?_⟩
  intro r hr hid
  rcases List.mem_map.1 hr with ⟨x, hx, rfl⟩
  by_cases hxe : x.id = existing.id
  · simp only [if_pos hxe, hgs, hprev]
    simp
  · rw [if_neg hxe] at hid ⊢
    exact absurd hid hxe

/-- Witness for C2: a record stored as closed, remote now open, resets to
pending even though it was in_process. -/
theorem reopen_resets_workflow_witness :
    (syncIssue sampleIssueOpen ("o/r") [sampleRowClosed]).1 = SyncAction.updated ∧
    ∀ r ∈ (syncIssue sampleIssueOpen ("o/r") [sampleRowClosed]).2, r.id = sampleRowClosed.id →
      r.workflowStatus = WorkflowStatus.pending :=
  reopen_resets_workflow sampleIssueOpen ("o/r") [sampleRowClosed] sampleRowClosed rfl rfl
    (by decide)

/-- C3: when the stored record remembers statusGithub open and the remote
issue is still open, reconciliation takes the update path and leaves the
workflowStatus of the stored record at its previous value (in particular
in_process never regresses to pending). -/
theorem open_remote_preserves_workflow (issue : GitHubIssue) (repository : String) (db : Db)
    (existing : DbIssue)
    (hstate : issue.state = "open")
    (hprev : existing.statusGithub = GitHubStatus.open_)
    (hfind : findUnique db issue.number repository = some existing) :
    (syncIssue issue repository db).1 = SyncAction.updated ∧
    ∀ r ∈ (syncIssue issue repository db).2, r.id = existing.id →
      r.workflowStatus = existing.workflowStatus := by
  have hgs : githubStatusOf issue.state = GitHubStatus.open_ := by
    rw [hstate]
    rfl
  rw [syncIssue_hit issue repository db existing hfind]
  refine ⟨rfl, ?_⟩
  intro r hr hid
  rcases List.mem_map.1 hr with ⟨x, hx, rfl⟩
  by_cases hxe : x.id = existing.id
  · simp only [if_pos hxe, hgs, hprev]
    simp
  · rw [if_neg hxe] at hid ⊢
    exact absurd hid hxe

/-- Witness for C3: an open record in workflowStatus in_process stays
in_process when the remote issue is still open. -/
theorem open_remote_preserves_workflow_witness :
    (syncIssue sampleIssueOpen ("o/r") [sampleRow]).1 = SyncAction.updated ∧
    ∀ r ∈ (syncIssue sampleIssueOpen ("o/r") [sampleRow]).2, r.id = sampleRow.id →
      r.workflowStatus = sampleRow.workflowStatus :=
  open_remote_preserves_workflow sampleIssueOpen ("o/r") [sampleRow] sampleRow rfl rfl (by decide)

-- A key count is zero exactly when findUnique misses.
lemma keyCount_eq_zero_of_findUnique_none (db : Db) (n : Nat) (repo : String)
    (h : findUnique db n repo = none) : keyCount db n repo = 0 := by
  unfold findUnique at h
  unfold keyCount
  rw [List.countP_eq_zero]
  exact List.find?_eq_none.1 h

-- Mapping a row transformation that does not touch the natural key leaves
-- every key count unchanged.
lemma keyCount_map_of_preserves (db : Db) (f : DbIssue → DbIssue)
    (hf : ∀ r, (f r).githubNumber = r.githubNumber ∧ (f r).repository = r.repository)
    (n : Nat) (repo : String) : keyCount (db.map f) n repo = keyCount db n repo := by
  unfold keyCount
  rw [List.countP_map]
  apply List.countP_congr
  intro r hr
  simp [Function.comp, (hf r).1, (hf r).2]

/-- C4: on a miss of the natural key (githubNumber, repository) the sync
creates one appended record whose workflowStatus is end when the remote
state is closed and pending otherwise; on a hit it updates in place (same
number of rows, same key count); and a second sync of the same unchanged
remote issue reports updated, not created, and leaves exactly one row with
that key. -/
theorem sync_upsert_semantics :
    (∀ (issue : GitHubIssue) (repository : String) (db : Db),
      findUnique db issue.number repository = none →
      (syncIssue issue repository db).1 = SyncAction.created ∧
      ∃ rec, (syncIssue issue repository db).2 = db ++ [rec] ∧
        rec.githubNumber = issue.number ∧ rec.repository = repository ∧
        rec.selectedContext = none ∧ rec.prompt = none ∧
        rec.workflowStatus =
          (if githubStatusOf issue.state = GitHubStatus.closed then WorkflowStatus.end_
           else WorkflowStatus.pending)) ∧
    (∀ (issue : GitHubIssue) (repository : String) (db : Db) (existing : DbIssue),
      findUnique db issue.number repository = some existing →
      (syncIssue issue repository db).1 = SyncAction.updated ∧
      (syncIssue issue repository db).2.length = db.length ∧
      keyCount (syncIssue issue repository db).2 issue.number repository =
        keyCount db issue.number repository) ∧
    (∀ (issue : GitHubIssue) (repository : String) (db : Db),
      findUnique db issue.number repository = none →
      (syncIssue issue repository (syncIssue issue repository db).2).1 = SyncAction.updated ∧
      keyCount (syncIssue issue repository (syncIssue issue repository db).2).2
        issue.number repository = 1 ∧
      (syncIssue issue repository (syncIssue issue repository db).2).2.length =
        db.length + 1) := by
  have hit_update : ∀ (issue : GitHubIssue) (repository : String) (db : Db)
      (existing : DbIssue), findUnique db issue.number repository = some existing →
      (syncIssue issue repository db).1 = SyncAction.updated ∧
      (syncIssue issue repository db).2.length = db.length ∧
      keyCount (syncIssue issue repository db).2 issue.number repository =
        keyCount db issue.number repository := by
    intro issue repository db existing h
    rw [syncIssue_hit issue repository db existing h]
    refine ⟨rfl, by simp, ?_⟩
    apply keyCount_map_of_preserves
    intro r
    by_cases hid : r.id = existing.id
    · rw [if_pos hid]
      exact ⟨rfl, rfl⟩
    · rw [if_neg hid]
      exact ⟨rfl, rfl⟩
  have second_find : ∀ (issue : GitHubIssue) (repository : String) (db : Db),
      findUnique db issue.number repository = none →
      ∃ rec, (syncIssue issue repository db).2 = db ++ [rec] ∧
        findUnique (db ++ [rec]) issue.number repository = some rec ∧
        rec.githubNumber = issue.number ∧ rec.repository = repository ∧
        rec.selectedContext = none ∧ rec.prompt = none ∧
        rec.workflowStatus =
          (if githubStatusOf issue.state = GitHubStatus.closed then WorkflowStatus.end_
           else WorkflowStatus.pending) := by
    intro issue repository db h
    rw [syncIssue_miss issue repository db h]
    refine ⟨_, rfl, ?_, rfl, rfl, rfl, rfl, rfl⟩
    unfold findUnique at h ⊢
    rw [List.find?_append, h]
    simp
  refine ⟨?_, fun issue repository db existing h => hit_update issue repository db existing h, ?_⟩
  · intro issue repository db h
    rw [syncIssue_miss issue repository db h]
    exact ⟨rfl, _, rfl, rfl, rfl, rfl, rfl, rfl⟩
  · intro issue repository db h
    obtain ⟨rec, hdb1, hfind2, hgn, hrepo, -, -, -⟩ := second_find issue repository db h
    rw [hdb1]
    obtain ⟨hact, hlen, hcount⟩ := hit_update issue repository (db ++ [rec]) rec hfind2
    refine ⟨hact, ?_, ?_⟩
    · rw [hcount]
      have hz := keyCount_eq_zero_of_findUnique_none db issue.number repository h
      unfold keyCount at hz ⊢
      rw [List.countP_append, hz]
      simp [List.countP_cons, hgn, hrepo]
    · rw [hlen]
      simp

/-- Witness for C4: a first sync of a closed remote issue into an empty
table creates (workflowStatus end), and the two-sync scenario on an open
issue reports updated with exactly one row for the key. -/
theorem sync_upsert_semantics_witness :
    ((syncIssue sampleIssueClosed ("o/r") []).1 = SyncAction.created ∧
      ∃ rec, (syncIssue sampleIssueClosed ("o/r") []).2 = ([] : Db) ++ [rec] ∧
        rec.githubNumber = sampleIssueClosed.number ∧ rec.repository = ("o/r") ∧
        rec.selectedContext = none ∧ rec.prompt = none ∧
        rec.workflowStatus =
          (if githubStatusOf sampleIssueClosed.state = GitHubStatus.closed then
            WorkflowStatus.end_
          else WorkflowStatus.pending)) ∧
    ((syncIssue sampleIssueOpen ("o/r") (syncIssue sampleIssueOpen ("o/r") []).2).1 =
        SyncAction.updated ∧
      keyCount (syncIssue sampleIssueOpen ("o/r")
          (syncIssue sampleIssueOpen ("o/r") []).2).2
        sampleIssueOpen.number ("o/r") = 1 ∧
      (syncIssue sampleIssueOpen ("o/r")
          (syncIssue sampleIssueOpen ("o/r") []).2).2.length = ([] : Db).length + 1) :=
  ⟨sync_upsert_semantics.1 sampleIssueClosed ("o/r") [] rfl,
   sync_upsert_semantics.2.2 sampleIssueOpen ("o/r") [] rfl⟩

/-- C7: every sync update of an existing record — in syncIssue and in the
per-issue body of syncUserAssignedIssues alike — rewrites exactly title,
description, labels, url, statusGithub, workflowStatus and updatedAtGithub
of the found record from the remote record, whatever workflow branch was
taken, and never modifies selectedContext, prompt, githubNumber,
repository, createdAtGithub or id of any row. -/
theorem sync_update_frame :
    (∀ (issue : GitHubIssue) (repository : String) (db : Db) (existing : DbIssue),
      findUnique db issue.number repository = some existing →
      (syncIssue issue repository db).2.length = db.length ∧
      ∀ (i : Nat) (r r2 : DbIssue), db[i]? = some r →
        ((syncIssue issue repository db).2)[i]? = some r2 →
        r2.id = r.id ∧ r2.githubNumber = r.githubNumber ∧ r2.repository = r.repository ∧
        r2.createdAtGithub = r.createdAtGithub ∧ r2.selectedContext = r.selectedContext ∧
        r2.prompt = r.prompt ∧
        (r.id = existing.id →
          r2.title = issue.title ∧ r2.description = issue.body ∧
          r2.labels = issue.labels.map (fun l => l.name) ∧ r2.url = issue.html_url ∧
          r2.statusGithub = githubStatusOf issue.state ∧
          r2.updatedAtGithub = issue.updated_at ∧
          r2.workflowStatus =
            (if githubStatusOf issue.state = GitHubStatus.closed then WorkflowStatus.end_
             else if existing.statusGithub = GitHubStatus.closed ∧
                 githubStatusOf issue.state = GitHubStatus.open_ then WorkflowStatus.pending
             else existing.workflowStatus)) ∧
        (r.id ≠ existing.id → r2 = r)) ∧
    (∀ (issue : GitHubIssue) (db : Db) (existing : DbIssue),
      findUnique db issue.number (extractRepoFromUrl issue.repository_url) = some existing →
      (syncUserIssue issue db).2.length = db.length ∧
      ∀ (i : Nat) (r r2 : DbIssue), db[i]? = some r →
        ((syncUserIssue issue db).2)[i]? = some r2 →
        r2.id = r.id ∧ r2.githubNumber = r.githubNumber ∧ r2.repository = r.repository ∧
        r2.createdAtGithub = r.createdAtGithub ∧ r2.selectedContext = r.selectedContext ∧
        r2.prompt = r.prompt ∧
        (r.id = existing.id →
          r2.title = issue.title ∧ r2.description = issue.body ∧
          r2.labels = issue.labels.map (fun l => l.name) ∧ r2.url = issue.html_url ∧
          r2.statusGithub = githubStatusOf issue.state ∧
          r2.updatedAtGithub = issue.updated_at ∧
          r2.workflowStatus =
            (if githubStatusOf issue.state = GitHubStatus.closed then WorkflowStatus.end_
             else if existing.statusGithub = GitHubStatus.closed ∧
                 githubStatusOf issue.state = GitHubStatus.open_ then WorkflowStatus.pending
             else existing.workflowStatus)) ∧
        (r.id ≠ existing.id → r2 = r)) := by
  have main : ∀ (issue : GitHubIssue) (repository : String) (db : Db) (existing : DbIssue),
      findUnique db issue.number repository = some existing →
      (syncIssue issue repository db).2.length = db.length ∧
      ∀ (i : Nat) (r r2 : DbIssue), db[i]? = some r →
        ((syncIssue issue repository db).2)[i]? = some r2 →
        r2.id = r.id ∧ r2.githubNumber = r.githubNumber ∧ r2.repository = r.repository ∧
        r2.createdAtGithub = r.createdAtGithub ∧ r2.selectedContext = r.selectedContext ∧
        r2.prompt = r.prompt ∧
        (r.id = existing.id →
          r2.title = issue.title ∧ r2.description = issue.body ∧
          r2.labels = issue.labels.map (fun l => l.name) ∧ r2.url = issue.html_url ∧
          r2.statusGithub = githubStatusOf issue.state ∧
          r2.updatedAtGithub = issue.updated_at ∧
          r2.workflowStatus =
            (if githubStatusOf issue.state = GitHubStatus.closed then WorkflowStatus.end_
             else if existing.statusGithub = GitHubStatus.closed ∧
                 githubStatusOf issue.state = GitHubStatus.open_ then WorkflowStatus.pending
             else existing.workflowStatus)) ∧
        (r.id ≠ existing.id → r2 = r) := by
    intro issue repository db existing h
    rw [syncIssue_hit issue repository db existing h]
    refine ⟨by simp, ?_⟩
    intro i r r2 hr hr2
    rw [List.getElem?_map, hr] at hr2
    have hf : (if r.id = existing.id then
        { r with title := issue.title, description := issue.body,
                 statusGithub := githubStatusOf issue.state,
                 workflowStatus :=
                   if githubStatusOf issue.state = GitHubStatus.closed then WorkflowStatus.end_
                   else if existing.statusGithub = GitHubStatus.closed ∧
                       githubStatusOf issue.state = GitHubStatus.open_ then
                     WorkflowStatus.pending
                   else existing.workflowStatus,
                 url := issue.html_url, labels := issue.labels.map (fun l => l.name),
                 updatedAtGithub := issue.updated_at }
      else r) = r2 := by
      simpa using hr2
    by_cases hid : r.id = existing.id
    · rw [if_pos hid] at hf
      rw [← hf]
      exact ⟨rfl, rfl, rfl, rfl, rfl, rfl,
        fun _ => ⟨rfl, rfl, rfl, rfl, rfl, rfl, rfl⟩,
        fun hne => absurd hid hne⟩
    · rw [if_neg hid] at hf
      rw [← hf]
      exact ⟨rfl, rfl, rfl, rfl, rfl, rfl, fun heq => absurd heq hid, fun _ => rfl⟩
  refine ⟨main, ?_⟩
  intro issue db existing h
  rw [syncUserIssue_eq]
  exact main issue (extractRepoFromUrl issue.repository_url) db existing h

/-- Witness for C7 at a concrete remote issue and a one-row table carrying
user-supplied selectedContext and prompt. -/
theorem sync_update_frame_witness :
    ((syncIssue sampleIssueClosed ("o/r") [sampleRow]).2.length = [sampleRow].length ∧
      ∀ (i : Nat) (r r2 : DbIssue), [sampleRow][i]? = some r →
        ((syncIssue sampleIssueClosed ("o/r") [sampleRow]).2)[i]? = some r2 →
        r2.id = r.id ∧ r2.githubNumber = r.githubNumber ∧ r2.repository = r.repository ∧
        r2.createdAtGithub = r.createdAtGithub ∧ r2.selectedContext = r.selectedContext ∧
        r2.prompt = r.prompt ∧
        (r.id = sampleRow.id →
          r2.title = sampleIssueClosed.title ∧ r2.description = sampleIssueClosed.body ∧
          r2.labels = sampleIssueClosed.labels.map (fun l => l.name) ∧
          r2.url = sampleIssueClosed.html_url ∧
          r2.statusGithub = githubStatusOf sampleIssueClosed.state ∧
          r2.updatedAtGithub = sampleIssueClosed.updated_at ∧
          r2.workflowStatus =
            (if githubStatusOf sampleIssueClosed.state = GitHubStatus.closed then
              WorkflowStatus.end_
             else if sampleRow.statusGithub = GitHubStatus.closed ∧
                 githubStatusOf sampleIssueClosed.state = GitHubStatus.open_ then
               WorkflowStatus.pending
             else sampleRow.workflowStatus)) ∧
        (r.id ≠ sampleRow.id → r2 = r)) ∧
    ((syncUserIssue sampleIssueClosed [sampleRow]).2.length = [sampleRow].length) :=
  ⟨sync_update_frame.1 sampleIssueClosed ("o/r") [sampleRow] sampleRow (by decide),
   (sync_update_frame.2 sampleIssueClosed [sampleRow] sampleRow (by decide)).1⟩

/-- Counterexample to C5 as stated: the start route rejects a supplied but
empty selectedContext. At a stored record that is open on GitHub with
workflowStatus pending, and a request body carrying selectedContext as the
empty string (so the parameter is not missing), the route answers 400 and
changes nothing, where the claim as stated requires the success path that
sets workflowStatus in_process. -/
theorem start_empty_context_counterexample :
    (({ selectedContext := some "", prompt := none } : StartBody).selectedContext = some "") ∧
    sampleRowPending.statusGithub = GitHubStatus.open_ ∧
    sampleRowPending.workflowStatus = WorkflowStatus.pending ∧
    findById [sampleRowPending] 0 = some sampleRowPending ∧
    startIssue [sampleRowPending] 0 { selectedContext := some "", prompt := none } =
      (StartResponse.err 400 ("selectedContext is required"), [sampleRowPending]) ∧
    ∀ r ∈ (startIssue [sampleRowPending] 0
        { selectedContext := some "", prompt := none }).2,
      r.workflowStatus ≠ WorkflowStatus.in_process := by
  decide

/-- C5 (amended): the start action fails with 400 when selectedContext is
missing or empty, 404 when no row has the id, 400 when the found row is not
open on GitHub, 400 when its workflowStatus is not pending — each failure
leaving the store unchanged — and otherwise, for a supplied non-empty
selectedContext, it answers the row updated with that selectedContext, the
supplied prompt or null, and workflowStatus in_process, writing the same to
the row with that id. -/
theorem start_transition_checks :
    (∀ (db : Db) (id : Nat) (body : StartBody), jsFalsyStr body.selectedContext = true →
      startIssue db id body = (StartResponse.err 400 ("selectedContext is required"), db)) ∧
    (∀ (db : Db) (id : Nat) (body : StartBody), jsFalsyStr body.selectedContext = false →
      findById db id = none →
      startIssue db id body = (StartResponse.err 404 ("Issue not found"), db)) ∧
    (∀ (db : Db) (id : Nat) (body : StartBody) (ex : DbIssue),
      jsFalsyStr body.selectedContext = false →
      findById db id = some ex → ex.statusGithub ≠ GitHubStatus.open_ →
      startIssue db id body = (StartResponse.err 400 ("Cannot start a closed issue"), db)) ∧
    (∀ (db : Db) (id : Nat) (body : StartBody) (ex : DbIssue),
      jsFalsyStr body.selectedContext = false →
      findById db id = some ex → ex.statusGithub = GitHubStatus.open_ →
      ex.workflowStatus ≠ WorkflowStatus.pending →
      startIssue db id body =
        (StartResponse.err 400 ("Issue is already in process or ended"), db)) ∧
    (∀ (db : Db) (id : Nat) (body : StartBody) (ex : DbIssue),
      jsFalsyStr body.selectedContext = false →
      findById db id = some ex → ex.statusGithub = GitHubStatus.open_ →
      ex.workflowStatus = WorkflowStatus.pending →
      (startIssue db id body).1 = StartResponse.ok
        { ex with selectedContext := body.selectedContext,
                  prompt := jsOrNull body.prompt,
                  workflowStatus := WorkflowStatus.in_process } ∧
      ∀ r ∈ (startIssue db id body).2, r.id = id →
        r.selectedContext = body.selectedContext ∧
        (r.prompt = body.prompt ∨ r.prompt = none) ∧
        r.workflowStatus = WorkflowStatus.in_process) := by
  refine ⟨?_, ?_, ?_, ?_, ?_⟩
  · intro db id body hfalsy
    unfold startIssue
    rw [hfalsy]
    rfl
  · intro db id body hfalsy hfind
    unfold startIssue
    rw [hfalsy, hfind]
    rfl
  · intro db id body ex hfalsy hfind hst
    unfold startIssue
    rw [hfalsy, hfind]
    simp only [Bool.false_eq_true, if_false, if_pos hst]
  · intro db id body ex hfalsy hfind hst hwf
    unfold startIssue
    rw [hfalsy, hfind]
    simp only [Bool.false_eq_true, if_false, hst]
    rw [if_neg (by simp), if_pos hwf]
  · intro db id body ex hfalsy hfind hst hwf
    unfold startIssue
    rw [hfalsy, hfind]
    simp only [Bool.false_eq_true, if_false, hst, hwf]
    constructor
    · rw [if_neg (by simp), if_neg (by simp)]
    · rw [if_neg (by simp), if_neg (by simp)]
      intro r hr hid
      rcases List.mem_map.1 hr with ⟨x, hx, rfl⟩
      by_cases hxe : (x.id == id) = true
      · rw [if_pos hxe]
        cases body.prompt with
        | none => exact ⟨rfl, Or.inl rfl, rfl⟩
        | some p =>
          refine ⟨rfl, ?_, rfl⟩
          by_cases hp : p = ""
          · simp [jsOrNull, hp]
          · simp [jsOrNull, hp]
      · rw [if_neg hxe] at hid ⊢
        exact absurd (by simp [hid]) hxe

/-- Witness for C5 on its success path: a pending open row, a non-empty
selectedContext and an empty prompt (stored as null). -/
theorem start_transition_checks_witness :
    (startIssue [sampleRowPending] 0
        { selectedContext := some "ctx2", prompt := some "" }).1 = StartResponse.ok
      { sampleRowPending with selectedContext := some "ctx2",
                              prompt := jsOrNull (some ""),
                              workflowStatus := WorkflowStatus.in_process } ∧
    ∀ r ∈ (startIssue [sampleRowPending] 0
        { selectedContext := some "ctx2", prompt := some "" }).2, r.id = 0 →
      r.selectedContext = some "ctx2" ∧
      (r.prompt = some "" ∨ r.prompt = none) ∧
      r.workflowStatus = WorkflowStatus.in_process :=
  start_transition_checks.2.2.2.2 [sampleRowPending] 0
    { selectedContext := some "ctx2", prompt := some "" } sampleRowPending rfl (by decide)
    rfl rfl

-- The inner loop step with no store fault, spelled as the match it reduces
-- to.
lemma syncOneIssueStep_nofault (repo : String) (acc : SyncResult × Db) (issue : GitHubIssue) :
    syncOneIssueStep (fun _ _ => none) repo acc issue =
      (match syncIssue issue repo acc.2 with
       | (SyncAction.created, db2) => ({ acc.1 with created := acc.1.created + 1 }, db2)
       | (SyncAction.updated, db2) => ({ acc.1 with updated := acc.1.updated + 1 }, db2)) := rfl

-- With no store fault, folding the inner loop over a list of issues adds
-- exactly one created-or-updated count per issue and records no error.
lemma foldl_nofault_counts (repo : String) (issues : List GitHubIssue) :
    ∀ acc : SyncResult × Db,
      ((issues.foldl (syncOneIssueStep (fun _ _ => none) repo) acc).1.created +
        (issues.foldl (syncOneIssueStep (fun _ _ => none) repo) acc).1.updated =
          acc.1.created + acc.1.updated + issues.length) ∧
      (issues.foldl (syncOneIssueStep (fun _ _ => none) repo) acc).1.errors = acc.1.errors := by
  induction issues with
  | nil =>
    intro acc
    simp
  | cons i is ih =>
    intro acc
    rw [List.foldl_cons, syncOneIssueStep_nofault]
    rcases hsync : syncIssue i repo acc.2 with ⟨a, db2⟩
    cases a with
    | created =>
      have h2 := ih ({ acc.1 with created := acc.1.created + 1 }, db2)
      refine ⟨?_, ?_⟩
      · rw [h2.1]
        dsimp only
        simp [List.length_cons]
        omega
      · rw [h2.2]
    | updated =>
      have h2 := ih ({ acc.1 with updated := acc.1.updated + 1 }, db2)
      refine ⟨?_, ?_⟩
      · rw [h2.1]
        dsimp only
        simp [List.length_cons]
        omega
      · rw [h2.2]

/-- C6: the sync orchestrator throws exactly for falsy GH_TOKEN or GH_REPOS
configuration and otherwise always returns a result; a repository whose
fetch fails contributes one error string naming it and nothing else, with
the fold moving on to the next repository; an issue whose persistence
fails contributes one error string carrying its number and repository, with
the fold moving on to the remaining issues; and with no store faults every
fetched issue is counted as created or updated with no error recorded. -/
theorem sync_orchestrator_error_handling :
    (∀ fetchRepo fault (db : Db) (reposConfig : Option String),
      syncIssuesFromGitHub none reposConfig fetchRepo fault db =
        Except.error ("GH_TOKEN environment variable is not set") ∧
      syncIssuesFromGitHub (some "") reposConfig fetchRepo fault db =
        Except.error ("GH_TOKEN environment variable is not set")) ∧
    (∀ fetchRepo fault (db : Db) (t : String), t ≠ "" →
      syncIssuesFromGitHub (some t) none fetchRepo fault db =
        Except.error ("GH_REPOS environment variable is not set") ∧
      syncIssuesFromGitHub (some t) (some "") fetchRepo fault db =
        Except.error ("GH_REPOS environment variable is not set")) ∧
    (∀ fetchRepo fault (db : Db) (t rc : String), t ≠ "" → rc ≠ "" →
      ∃ out, syncIssuesFromGitHub (some t) (some rc) fetchRepo fault db = Except.ok out) ∧
    (∀ fetchRepo fault (acc : SyncResult × Db) (repo e : String),
      (jsSplitChar '/' repo).getD 0 ("") ≠ "" →
      (jsSplitChar '/' repo).getD 1 ("") ≠ "" →
      fetchRepo ((jsSplitChar '/' repo).getD 0 ("")) ((jsSplitChar '/' repo).getD 1 ("")) =
        Except.error e →
      syncRepoStep fetchRepo fault acc repo =
        ({ acc.1 with errors := acc.1.errors ++
            ["Error fetching issues from " ++ repo ++ ": " ++ e] }, acc.2)) ∧
    (∀ fetchRepo fault (acc : SyncResult × Db) (repo : String) (rest : List String),
      (repo :: rest).foldl (syncRepoStep fetchRepo fault) acc =
        rest.foldl (syncRepoStep fetchRepo fault) (syncRepoStep fetchRepo fault acc repo)) ∧
    (∀ fault (repo : String) (acc : SyncResult × Db) (issue : GitHubIssue) (m : String)
        (rest : List GitHubIssue),
      fault issue repo = some m →
      syncOneIssueStep fault repo acc issue =
        ({ acc.1 with errors := acc.1.errors ++
            ["Error syncing issue #" ++ toString issue.number ++ " from " ++ repo ++
              ": " ++ m] }, acc.2) ∧
      (issue :: rest).foldl (syncOneIssueStep fault repo) acc =
        rest.foldl (syncOneIssueStep fault repo)
          ({ acc.1 with errors := acc.1.errors ++
              ["Error syncing issue #" ++ toString issue.number ++ " from " ++ repo ++
                ": " ++ m] }, acc.2)) ∧
    (∀ (repo : String) (issues : List GitHubIssue) (acc : SyncResult × Db),
      ((issues.foldl (syncOneIssueStep (fun _ _ => none) repo) acc).1.created +
        (issues.foldl (syncOneIssueStep (fun _ _ => none) repo) acc).1.updated =
          acc.1.created + acc.1.updated + issues.length) ∧
      (issues.foldl (syncOneIssueStep (fun _ _ => none) repo) acc).1.errors =
        acc.1.errors) := by
  refine ⟨?_, ?_, ?_, ?_, ?_, ?_, ?_⟩
  · intro fetchRepo fault db reposConfig
    exact ⟨rfl, rfl⟩
  · intro fetchRepo fault db t ht
    constructor
    · unfold syncIssuesFromGitHub
      simp [jsFalsyStr, ht]
    · unfold syncIssuesFromGitHub
      simp [jsFalsyStr, ht]
  · intro fetchRepo fault db t rc ht hrc
    unfold syncIssuesFromGitHub
    simp [jsFalsyStr, ht, hrc]
  · intro fetchRepo fault acc repo e howner hrepoName hfetch
    unfold syncRepoStep
    rw [if_neg (not_or.2 ⟨howner, hrepoName⟩), hfetch]
  · intro fetchRepo fault acc repo rest
    rfl
  · intro fault repo acc issue m rest hfault
    have hstep : syncOneIssueStep fault repo acc issue =
        ({ acc.1 with errors := acc.1.errors ++
            ["Error syncing issue #" ++ toString issue.number ++ " from " ++ repo ++
              ": " ++ m] }, acc.2) := by
      unfold syncOneIssueStep
      rw [hfault]
    refine ⟨hstep, ?_⟩
    rw [List.foldl_cons, hstep]
  · intro repo issues acc
    exact foldl_nofault_counts repo issues acc

-- A fetch oracle for the witness: repository A fails, everything else
-- answers one open issue.
def fetchAB : String → String → Except String (List GitHubIssue) :=
  fun owner _ => if owner = "ownA" then Except.error ("boom") else Except.ok [sampleIssueOpen]

/-- Witness for C6: a run over the configuration ownA/repoA,ownB/repoB in
which fetching A fails and B succeeds returns ok with one error naming A
and counts reflecting only the issue of B. -/
theorem sync_orchestrator_error_handling_witness :
    syncIssuesFromGitHub (some "tok") (some "ownA/repoA, ownB/repoB") fetchAB
        (fun _ _ => none) [] =
      Except.ok
        ((⟨1, 0, ["Error fetching issues from ownA/repoA: boom"]⟩ : SyncResult),
          (syncIssue sampleIssueOpen ("ownB/repoB") []).2) := by
  rfl

-- Inserting one row grows the sorted list by one.
lemma insertRow_length (r : DbIssue) (l : List DbIssue) :
    (insertRow r l).length = l.length + 1 := by
  induction l with
  | nil => rfl
  | cons x xs ih =>
    unfold insertRow
    by_cases h : issueBefore r x = true
    · rw [if_pos h]
      rfl
    · rw [if_neg h]
      simp [List.length_cons, ih]

-- Sorting keeps the number of rows.
lemma sortRows_length (l : List DbIssue) : (sortRows l).length = l.length := by
  induction l with
  | nil => rfl
  | cons x xs ih =>
    unfold sortRows
    rw [insertRow_length, ih]
    rfl

-- The integer ceiling division agrees with the rational ceiling for a
-- positive divisor.
lemma intCeilDiv_eq_ceil (a : ℤ) (b : ℕ) (hb : 0 < b) :
    intCeilDiv a b = ⌈(a : ℚ) / (b : ℚ)⌉ := by
  have hb1 : (0:ℤ) < (b:ℤ) := by exact_mod_cast hb
  rw [intCeilDiv, if_pos hb1]
  have h1 : ⌈(a : ℚ) / (b : ℚ)⌉ = -⌊-((a : ℚ) / (b : ℚ))⌋ := by
    rw [Int.floor_neg, neg_neg]
  rw [h1]
  rw [show (-((a:ℚ)/(b:ℚ))) = ((-a : ℤ) : ℚ) / (b : ℚ) by push_cast; ring]
  rw [Rat.floor_intCast_div_natCast]
  rfl

-- A cast natural is in the domain prisma accepts for skip and take.
lemma jsToNat_natCast (n : Nat) : jsToNat (JSNum.fin (n : Int)) = some n := by
  show (if (0 : Int) ≤ (n : Int) then some ((n : Int)).toNat else none) = some n
  rw [if_pos (by exact_mod_cast Nat.zero_le n)]
  simp

-- Math.ceil(total / limit) at a positive integer limit is the rational
-- ceiling.
lemma jsCeilDiv_fin_natCast (total l : Nat) (hl : 0 < l) :
    jsCeilDiv total (JSNum.fin (l : Int)) = JSNum.fin ⌈(total : ℚ) / (l : ℚ)⌉ := by
  show (if (l : Int) = 0 then (if total = 0 then JSNum.nan else JSNum.posInf)
    else JSNum.fin (intCeilDiv total l)) = _
  rw [if_neg (by exact_mod_cast Nat.pos_iff_ne_zero.1 hl)]
  rw [intCeilDiv_eq_ceil _ _ hl]
  congr 2


/-- C8: with page parsing to p ≥ 1 and limit to l > 0, the list endpoint
answers the window that drops (p-1)*l of the ordered matching rows and
keeps at most l of them, totalPages is the ceiling of total over l, and an
absent page or limit parameter falls back to 1 and 20. -/
theorem list_pagination (db : Db)
    (repository workflowStatus statusGithub pageQ limitQ : Option String) (p l : Nat)
    (hp : pageParam pageQ = JSNum.fin (p : Int))
    (hl : limitParam limitQ = JSNum.fin (l : Int))
    (hp1 : 1 ≤ p) (hl0 : 0 < l) :
    (listIssues db repository workflowStatus statusGithub pageQ limitQ).issues =
      ((sortRows (db.filter
        (matchesWhere (buildWhere repository workflowStatus statusGithub)))).drop
          ((p - 1) * l)).take l ∧
    (listIssues db repository workflowStatus statusGithub pageQ limitQ).issues.length ≤ l ∧
    (listIssues db repository workflowStatus statusGithub pageQ limitQ).pagination.totalPages =
      JSNum.fin ⌈((db.filter
        (matchesWhere (buildWhere repository workflowStatus statusGithub))).length : ℚ) /
          (l : ℚ)⌉ ∧
    pageParam none = JSNum.fin 1 ∧ limitParam none = JSNum.fin 20 := by
  have hskip : skipParam pageQ limitQ = JSNum.fin (((p - 1) * l : Nat) : Int) := by
    unfold skipParam
    rw [hp, hl]
    show JSNum.fin (((p : Int) - 1) * (l : Int)) = JSNum.fin (((p - 1) * l : Nat) : Int)
    congr 1
    rw [Nat.cast_mul]
    have h1 : ((p : Int) - 1) = ((p - 1 : Nat) : Int) := by omega
    rw [h1]
  have hissues : (listIssues db repository workflowStatus statusGithub pageQ limitQ).issues =
      ((sortRows (db.filter
        (matchesWhere (buildWhere repository workflowStatus statusGithub)))).drop
          ((p - 1) * l)).take l := by
    show findManyIssues db (buildWhere repository workflowStatus statusGithub)
        (skipParam pageQ limitQ) (limitParam limitQ) = _
    rw [hskip, hl]
    unfold findManyIssues
    rw [jsToNat_natCast, jsToNat_natCast]
  refine ⟨hissues, ?_, ?_, rfl, rfl⟩
  · rw [hissues]
    exact List.length_take_le _ _
  · show jsCeilDiv ((db.filter
        (matchesWhere (buildWhere repository workflowStatus statusGithub))).length)
      (limitParam limitQ) = _
    rw [hl]
    exact jsCeilDiv_fin_natCast _ l hl0

def db45 : Db := List.replicate 45 sampleRow

/-- Witness for C8: 45 matching rows, limit 20, page 2 answer exactly 20
rows with totalPages 3, and the defaults are 1 and 20. -/
theorem list_pagination_witness :
    (listIssues db45 none none none (some "2") (some "20")).issues.length = 20 ∧
    (listIssues db45 none none none (some "2") (some "20")).pagination.totalPages =
      JSNum.fin 3 ∧
    pageParam none = JSNum.fin 1 ∧ limitParam none = JSNum.fin 20 := by
  have hfilter : db45.filter (matchesWhere (buildWhere none none none)) = db45 :=
    List.filter_eq_self.mpr (fun a _ => rfl)
  have h := list_pagination db45 none none none (some "2") (some "20") 2 20
    (by decide) (by decide) (by decide) (by decide)
  refine ⟨?_, ?_, h.2.2.2.1, h.2.2.2.2⟩
  · rw [h.1, List.length_take, List.length_drop, hfilter, sortRows_length]
    decide
  · rw [h.2.2.1, hfilter]
    rw [show db45.length = 45 from rfl]
    congr 1
    rw [show ((45 : Nat) : ℚ) / ((20 : Nat) : ℚ) = (45 : ℚ) / 20 by norm_num]
    norm_num [Int.ceil_eq_iff]

/-- C9: a workflowStatus filter value outside pending, in_process, end, or a
statusGithub filter value outside open, closed, is silently dropped: the
response is the response of the same request without that parameter, and no
error path exists in this computation. -/
theorem invalid_filter_ignored :
    (∀ (db : Db) (repository : Option String) (s : String)
        (statusGithub pageQ limitQ : Option String),
      s ∉ (["pending", "in_process", "end"] : List String) →
      listIssues db repository (some s) statusGithub pageQ limitQ =
        listIssues db repository none statusGithub pageQ limitQ) ∧
    (∀ (db : Db) (repository workflowStatus : Option String) (s : String)
        (pageQ limitQ : Option String),
      s ∉ (["open", "closed"] : List String) →
      listIssues db repository workflowStatus (some s) pageQ limitQ =
        listIssues db repository workflowStatus none pageQ limitQ) := by
  constructor
  · intro db repository s statusGithub pageQ limitQ h
    have hc : List.contains ["pending", "in_process", "end"] s = false := by
      simpa using h
    have hw : buildWhere repository (some s) statusGithub =
        buildWhere repository none statusGithub := by
      simp [buildWhere, hc]
      intro _
      simpa using h
    unfold listIssues
    rw [hw]
  · intro db repository workflowStatus s pageQ limitQ h
    have hc : List.contains ["open", "closed"] s = false := by
      simpa using h
    have hw : buildWhere repository workflowStatus (some s) =
        buildWhere repository workflowStatus none := by
      simp [buildWhere, hc]
      intro _
      simpa using h
    unfold listIssues
    rw [hw]

/-- Witness for C9 at the invalid filter value bogus over a one-row table. -/
theorem invalid_filter_ignored_witness :
    (listIssues [sampleRow] none (some "bogus") none none none =
      listIssues [sampleRow] none none none none none) ∧
    (listIssues [sampleRow] none none (some "bogus") none none =
      listIssues [sampleRow] none none none none none) :=
  ⟨invalid_filter_ignored.1 [sampleRow] none ("bogus") none none none (by decide),
   invalid_filter_ignored.2 [sampleRow] none none ("bogus") none none (by decide)⟩

/-- C10: the list route defaults page to 1 and limit to 20 only for an
absent or empty parameter; a present non-numeric page parses to NaN, which
flows as-is into the pagination metadata and the skip computation; and with
limit 0 the route still answers, totalPages being Math.ceil(total / 0) —
Infinity for a positive total. -/
theorem list_param_parse_edges :
    (pageParam none = JSNum.fin 1 ∧ pageParam (some "") = JSNum.fin 1 ∧
      limitParam none = JSNum.fin 20 ∧ limitParam (some "") = JSNum.fin 20) ∧
    (pageParam (some "abc") = JSNum.nan ∧
      ∀ limitQ, skipParam (some "abc") limitQ = JSNum.nan) ∧
    (∀ (db : Db) (repository workflowStatus statusGithub limitQ : Option String),
      (listIssues db repository workflowStatus statusGithub
        (some "abc") limitQ).pagination.page = JSNum.nan) ∧
    (∀ (db : Db) (repository workflowStatus statusGithub pageQ : Option String),
      (listIssues db repository workflowStatus statusGithub pageQ
        (some "0")).pagination.limit = JSNum.fin 0 ∧
      (listIssues db repository workflowStatus statusGithub pageQ
        (some "0")).pagination.totalPages =
        jsCeilDiv (listIssues db repository workflowStatus statusGithub pageQ
          (some "0")).pagination.total (JSNum.fin 0) ∧
      (0 < (db.filter (matchesWhere (buildWhere repository workflowStatus
          statusGithub))).length →
        (listIssues db repository workflowStatus statusGithub pageQ
          (some "0")).pagination.totalPages = JSNum.posInf)) := by
  have hceil0 : ∀ t : Nat, 0 < t → jsCeilDiv t (JSNum.fin 0) = JSNum.posInf := by
    intro t ht
    show (if (0 : Int) = 0 then (if t = 0 then JSNum.nan else JSNum.posInf)
      else JSNum.fin (intCeilDiv t 0)) = JSNum.posInf
    rw [if_pos rfl, if_neg (Nat.pos_iff_ne_zero.1 ht)]
  refine ⟨⟨rfl, rfl, rfl, rfl⟩, ⟨rfl, ?_⟩, ?_, ?_⟩
  · intro limitQ
    unfold skipParam
    cases h : limitParam limitQ <;> rfl
  · intro db repository workflowStatus statusGithub limitQ
    rfl
  · intro db repository workflowStatus statusGithub pageQ
    refine ⟨rfl, rfl, ?_⟩
    intro hpos
    show jsCeilDiv ((db.filter (matchesWhere (buildWhere repository workflowStatus
      statusGithub))).length) (JSNum.fin 0) = JSNum.posInf
    exact hceil0 _ hpos

/-- Witness for C10: limit 0 over one matching row answers totalPages
Infinity, and page abc flows through as NaN. -/
theorem list_param_parse_edges_witness :
    (listIssues [sampleRow] none none none none (some "0")).pagination.totalPages =
      JSNum.posInf ∧
    (listIssues [] none none none (some "abc") none).pagination.page = JSNum.nan :=
  ⟨(list_param_parse_edges.2.2.2 [sampleRow] none none none none).2.2 (by decide),
   list_param_parse_edges.2.2.1 [] none none none none⟩
